import Mathlib

set_option maxHeartbeats 1000000

namespace SetupJava

/-- A JavaScript Error value as seen by a catch handler: its name and message. -/
structure JsError where
  name : String
  message : String
  deriving DecidableEq

/-- Model of path.join applied to two segments. -/
def pathJoin (a b : String) : String := a ++ "/" ++ b

/-- The environment of the process: the RUNNER_OS variable, the value of
os.type, the home directory, the working directory, and the external file
hashing primitive, which receives the newline joined pattern list and returns
the content hash, or the empty string when no file matched. -/
structure Env where
  runnerOS : String
  osType : String
  homedir : String
  cwd : String
  hashFiles : String → String

/-- Name of the persisted state slot holding the primary key. -/
def STATE_CACHE_PRIMARY_KEY : String := "cache-primary-key"

/-- Name of the persisted state slot holding the matched key. -/
def CACHE_MATCHED_KEY : String := "cache-matched-key"

/-- Models the constant CACHE_KEY_PREFIX of the source. -/
def cacheKeyPrefixStr : String := "setup-java"

/-- Descriptor of a supported package manager: its identity, the cache root
paths, and the default glob patterns used for fingerprinting. -/
structure PackageManager where
  id : String
  path : List String
  pattern : List String
  deriving DecidableEq

/-- OS specific location of the coursier cache. -/
def getCoursierCachePath (env : Env) : String :=
  if env.osType = "Linux" then pathJoin (pathJoin env.homedir ".cache") "coursier"
  else if env.osType = "Darwin" then
    pathJoin (pathJoin (pathJoin env.homedir "Library") "Caches") "Coursier"
  else pathJoin (pathJoin (pathJoin (pathJoin env.homedir "AppData") "Local") "Coursier") "Cache"

/-- The static catalog of the supported package managers. -/
def supportedPackageManager (env : Env) : List PackageManager :=
  [⟨"maven",
    [pathJoin (pathJoin env.homedir ".m2") "repository"],
    ["**/pom.xml"]⟩,
   ⟨"gradle",
    [pathJoin (pathJoin env.homedir ".gradle") "caches"],
    ["gradle/wrapper/gradle-wrapper.properties",
     "gradle.properties*",
     "settings.gradle*"]⟩,
   ⟨"sbt",
    [pathJoin (pathJoin env.homedir ".ivy2") "cache",
     pathJoin env.homedir ".sbt",
     getCoursierCachePath env,
     "!" ++ pathJoin (pathJoin env.homedir ".sbt") "*.lock",
     "!" ++ pathJoin (pathJoin env.homedir "**") "ivydata-*.properties"],
    ["**/*.sbt",
     "**/project/build.properties",
     "**/project/**.scala",
     "**/project/**.sbt"]⟩]

/-- Look up a package manager by id; throws for an unknown id. -/
def findPackageManager (env : Env) (id : String) : Except JsError PackageManager :=
  match (supportedPackageManager env).find? (fun packageManager => packageManager.id == id) with
  | some packageManager => .ok packageManager
  | none => .error ⟨"Error", "unknown package manager specified: " ++ id⟩

/-- Model of the JavaScript String.prototype.trim method: strip whitespace
from both ends. -/
def jsTrim (s : String) : String :=
  ⟨((s.data.dropWhile Char.isWhitespace).reverse.dropWhile Char.isWhitespace).reverse⟩

/-- Helper of jsSplitNewline: accumulate the current segment in reverse. -/
def splitNlAux : List Char → List Char → List String
  | [], acc => [⟨acc.reverse⟩]
  | c :: rest, acc =>
    if c = '\n' then ⟨acc.reverse⟩ :: splitNlAux rest []
    else splitNlAux rest (c :: acc)

/-- Model of the JavaScript split method with separator a newline. -/
def jsSplitNewline (s : String) : List String := splitNlAux s.data []

/-- Model of the JavaScript String.prototype.startsWith method. -/
def jsStartsWith (s p : String) : Bool := p.data.isPrefixOf s.data

/-- The effective glob pattern list of computeCacheKey: a non empty override
is trimmed and split on newlines, replacing the default patterns of the
descriptor; an empty override selects the defaults. -/
def effectivePattern (packageManager : PackageManager) (cacheDependencyPath : String) : List String :=
  if cacheDependencyPath ≠ "" then jsSplitNewline (jsTrim cacheDependencyPath)
  else packageManager.pattern

/-- Compute the cache key string, failing when the hashing primitive reports
an empty hash. -/
def computeCacheKey (env : Env) (packageManager : PackageManager)
    (cacheDependencyPath : String) : Except JsError String :=
  let pattern := effectivePattern packageManager cacheDependencyPath
  let fileHash := env.hashFiles (String.intercalate "\n" pattern)
  if fileHash = "" then
    .error ⟨"Error",
      "No file in " ++ env.cwd ++ " matched to [" ++ String.intercalate "," pattern ++
        "], make sure you have checked out the target repository"⟩
  else
    .ok (cacheKeyPrefixStr ++ "-" ++ env.runnerOS ++ "-" ++ packageManager.id ++ "-" ++ fileHash)

/-- Observable effects of one restore call, each list in order of occurrence. -/
structure RestoreEffects where
  debugs : List String
  stateWrites : List (String × String)
  storeRestoreCalls : List (List String × String × List String)
  outputs : List (String × Bool)
  infos : List String
  deriving DecidableEq

/-- The restore coordinator. The artifact store is modelled by the matched
key it would report for the single possible restoreCache call: none when it
reports no match. -/
def restore (env : Env) (storeResult : Option String) (id : String)
    (cacheDependencyPath : String) (performRestore : Bool) : RestoreEffects × Option JsError :=
  match findPackageManager env id with
  | .error e => (⟨[], [], [], [], []⟩, some e)
  | .ok packageManager =>
    match computeCacheKey env packageManager cacheDependencyPath with
    | .error e => (⟨[], [], [], [], []⟩, some e)
    | .ok primaryKey =>
      if performRestore then
        let fallbackKey := cacheKeyPrefixStr ++ "-" ++ env.runnerOS ++ "-" ++ packageManager.id
        let matchedKey := storeResult.getD ""
        if matchedKey ≠ "" then
          (⟨["primary key is " ++ primaryKey],
            [(STATE_CACHE_PRIMARY_KEY, primaryKey), (CACHE_MATCHED_KEY, matchedKey)],
            [(packageManager.path, primaryKey, [fallbackKey])],
            [("cache-hit", matchedKey == primaryKey)],
            ["Cache restored from key: " ++ matchedKey]⟩, none)
        else
          (⟨["primary key is " ++ primaryKey],
            [(STATE_CACHE_PRIMARY_KEY, primaryKey)],
            [(packageManager.path, primaryKey, [fallbackKey])],
            [("cache-hit", false)],
            [packageManager.id ++ " cache is not found for key " ++ primaryKey]⟩, none)
      else
        (⟨["primary key is " ++ primaryKey],
          [(STATE_CACHE_PRIMARY_KEY, primaryKey)], [], [], []⟩, none)

/-- Observable effects of one save call. -/
structure SaveEffects where
  warnings : List String
  infos : List String
  storeSaveCalls : List (List String × String)
  deriving DecidableEq

/-- The actionable warning emitted for the gradle daemon problem on Windows. -/
def gradleDaemonWarning : String :=
  "Failed to save Gradle cache on Windows. If tar.exe reported \"Permission denied\", try to run Gradle with `--no-daemon` option. Refer to https://github.com/actions/cache/issues/454 for details."

/-- Classifier of the gradle daemon tar problem. -/
def isProbablyGradleDaemonProblem (env : Env) (packageManager : PackageManager)
    (error : JsError) : Bool :=
  if packageManager.id != "gradle" || env.runnerOS != "Windows" then false
  else jsStartsWith error.message "Tar failed with error: "

/-- The try block of save: attempt the saveCache call of the artifact store,
whose outcome is given by storeSaveResult, and classify a failure. -/
def trySaveCache (env : Env) (packageManager : PackageManager) (primaryKey : String)
    (storeSaveResult : Except JsError Unit) : SaveEffects × Option JsError :=
  match storeSaveResult with
  | .ok _ =>
    (⟨[], ["Cache saved with the key: " ++ primaryKey],
      [(packageManager.path, primaryKey)]⟩, none)
  | .error err =>
    if err.name == "ReserveCacheError" then
      (⟨[], [err.message], [(packageManager.path, primaryKey)]⟩, none)
    else if isProbablyGradleDaemonProblem env packageManager err then
      (⟨[gradleDaemonWarning], [], [(packageManager.path, primaryKey)]⟩, some err)
    else
      (⟨[], [], [(packageManager.path, primaryKey)]⟩, some err)

/-- The save coordinator. The persisted state is modelled by getState, which
returns the empty string for an absent slot; the artifact store by the
outcome its saveCache call would have. -/
def save (env : Env) (getState : String → String) (storeSaveResult : Except JsError Unit)
    (id : String) (forceUpdate : Bool) : SaveEffects × Option JsError :=
  match findPackageManager env id with
  | .error e => (⟨[], [], []⟩, some e)
  | .ok packageManager =>
    let matchedKey := getState CACHE_MATCHED_KEY
    let primaryKey := getState STATE_CACHE_PRIMARY_KEY
    if !forceUpdate && primaryKey == "" then
      (⟨["Error retrieving key from state."], [], []⟩, none)
    else if !forceUpdate && matchedKey == primaryKey then
      (⟨[], ["Cache hit occurred on the primary key " ++ primaryKey ++ ", not saving cache."],
        []⟩, none)
    else
      trySaveCache env packageManager primaryKey storeSaveResult

/-- A concrete Linux environment whose hashing primitive always succeeds. -/
def envLinux : Env := ⟨"Linux", "Linux", "/home/runner", "/w", fun _ => "deadbeef"⟩

/-- A second environment agreeing with envLinux on RUNNER_OS, the working
directory and the hashing primitive, but differing elsewhere. -/
def envLinuxAlt : Env := ⟨"Linux", "Windows_NT", "/root", "/w", fun _ => "deadbeef"⟩

/-- A concrete environment whose hashing primitive never matches a file. -/
def envNoMatch : Env := ⟨"Linux", "Linux", "/home/runner", "/w", fun _ => ""⟩

/-- A concrete Windows environment. -/
def envWin : Env := ⟨"Windows", "Windows_NT", "C:/Users/r", "/w", fun _ => "deadbeef"⟩

/-- The maven descriptor produced for envLinux. -/
def pmMavenVal : PackageManager := ⟨"maven", ["/home/runner/.m2/repository"], ["**/pom.xml"]⟩

/-- The gradle descriptor produced for envWin. -/
def pmGradleWinVal : PackageManager :=
  ⟨"gradle", ["C:/Users/r/.gradle/caches"],
   ["gradle/wrapper/gradle-wrapper.properties", "gradle.properties*", "settings.gradle*"]⟩

/-- A persisted state with both slots absent. -/
def gsEmpty : String → String := fun _ => ""

/-- A persisted state where the matched key equals the primary key. -/
def gsHit : String → String := fun _ => "setup-java-Linux-maven-deadbeef"

/-- A persisted state with a primary key and no matched key. -/
def gsMiss : String → String := fun s => if s = STATE_CACHE_PRIMARY_KEY then "pk1" else ""

theorem trySaveCache_calls (env : Env) (packageManager : PackageManager) (primaryKey : String)
    (storeSaveResult : Except JsError Unit) :
    (trySaveCache env packageManager primaryKey storeSaveResult).1.storeSaveCalls =
      [(packageManager.path, primaryKey)] := by
  rcases storeSaveResult with e | u
  · unfold trySaveCache
    by_cases h1 : (e.name == "ReserveCacheError") = true
    · simp [h1]
    · by_cases h2 : isProbablyGradleDaemonProblem env packageManager e = true
      · simp [h1, h2]
      · simp [h1, h2]
  · rfl

/-- Claim C1: for a supported package manager id, save with forceUpdate false
follows the decision policy: with no persisted primary key it emits the
warning and makes no store call; with an exact matched key it emits the
informational trace and makes no store call; otherwise it calls the store
save with the descriptor cache paths and the primary key. With forceUpdate
true a save is always attempted. -/
theorem c1_save_decision_policy (env : Env) (getState : String → String)
    (storeSaveResult : Except JsError Unit) (id : String) (pm : PackageManager)
    (hpm : findPackageManager env id = .ok pm) :
    (getState STATE_CACHE_PRIMARY_KEY = "" →
      save env getState storeSaveResult id false =
        (⟨["Error retrieving key from state."], [], []⟩, none)) ∧
    (getState STATE_CACHE_PRIMARY_KEY ≠ "" →
      getState CACHE_MATCHED_KEY = getState STATE_CACHE_PRIMARY_KEY →
      save env getState storeSaveResult id false =
        (⟨[], ["Cache hit occurred on the primary key " ++ getState STATE_CACHE_PRIMARY_KEY ++
               ", not saving cache."], []⟩, none)) ∧
    (getState STATE_CACHE_PRIMARY_KEY ≠ "" →
      getState CACHE_MATCHED_KEY ≠ getState STATE_CACHE_PRIMARY_KEY →
      (save env getState storeSaveResult id false).1.storeSaveCalls =
        [(pm.path, getState STATE_CACHE_PRIMARY_KEY)]) ∧
    (save env getState storeSaveResult id true).1.storeSaveCalls =
      [(pm.path, getState STATE_CACHE_PRIMARY_KEY)] := by
  refine ⟨?_, ?_, ?_, ?_⟩
  · intro h
    unfold save
    rw [hpm]
    simp [h]
  · intro h1 h2
    unfold save
    rw [hpm]
    simp [h1, h2]
  · intro h1 h2
    unfold save
    rw [hpm]
    simp [h1, h2, trySaveCache_calls]
  · unfold save
    rw [hpm]
    simp [trySaveCache_calls]

/-- Claim C1 witness at concrete inputs for the maven package manager. -/
theorem c1_save_decision_policy_witness :
    save envLinux gsEmpty (.ok ()) "maven" false =
      (⟨["Error retrieving key from state."], [], []⟩, none) ∧
    save envLinux gsHit (.ok ()) "maven" false =
      (⟨[], ["Cache hit occurred on the primary key setup-java-Linux-maven-deadbeef, not saving cache."],
        []⟩, none) ∧
    (save envLinux gsMiss (.ok ()) "maven" false).1.storeSaveCalls =
      [(["/home/runner/.m2/repository"], "pk1")] ∧
    (save envLinux gsEmpty (.ok ()) "maven" true).1.storeSaveCalls =
      [(["/home/runner/.m2/repository"], "")] :=
  ⟨(c1_save_decision_policy envLinux gsEmpty (.ok ()) "maven" pmMavenVal rfl).1 rfl,
   (c1_save_decision_policy envLinux gsHit (.ok ()) "maven" pmMavenVal rfl).2.1
     (by decide) rfl,
   (c1_save_decision_policy envLinux gsMiss (.ok ()) "maven" pmMavenVal rfl).2.2.1
     (by decide) (by decide),
   (c1_save_decision_policy envLinux gsEmpty (.ok ()) "maven" pmMavenVal rfl).2.2.2⟩

/-- Claim C2: restore persists the computed primary key as its first state
write regardless of performRestore; with performRestore true it issues
exactly one store restore call with the descriptor cache paths, the primary
key and the single coarse fallback key without content hash; with
performRestore false there is no store call and the primary key write is the
only state write, so the matched key slot is never written. -/
theorem c2_restore_frame (env : Env) (storeResult : Option String) (id : String)
    (cacheDependencyPath : String) (performRestore : Bool) (pm : PackageManager) (k : String)
    (hpm : findPackageManager env id = .ok pm)
    (hk : computeCacheKey env pm cacheDependencyPath = .ok k) :
    (restore env storeResult id cacheDependencyPath performRestore).1.stateWrites.head? =
      some (STATE_CACHE_PRIMARY_KEY, k) ∧
    (performRestore = true →
      (restore env storeResult id cacheDependencyPath performRestore).1.storeRestoreCalls =
        [(pm.path, k, [cacheKeyPrefixStr ++ "-" ++ env.runnerOS ++ "-" ++ pm.id])]) ∧
    (performRestore = false →
      (restore env storeResult id cacheDependencyPath performRestore).1.storeRestoreCalls = [] ∧
      (restore env storeResult id cacheDependencyPath performRestore).1.stateWrites =
        [(STATE_CACHE_PRIMARY_KEY, k)]) := by
  simp only [restore, hpm, hk]
  rcases performRestore with _ | _
  · simp
  · by_cases hm : storeResult.getD "" ≠ ""
    · simp [hm]
    · simp [hm]

/-- Claim C2 witness at concrete inputs for the maven package manager. -/
theorem c2_restore_frame_witness :
    (restore envLinux none "maven" "" true).1.stateWrites.head? =
      some (STATE_CACHE_PRIMARY_KEY, "setup-java-Linux-maven-deadbeef") ∧
    (restore envLinux none "maven" "" true).1.storeRestoreCalls =
      [(["/home/runner/.m2/repository"], "setup-java-Linux-maven-deadbeef",
        ["setup-java-Linux-maven"])] ∧
    (restore envLinux none "maven" "" false).1.storeRestoreCalls = [] ∧
    (restore envLinux none "maven" "" false).1.stateWrites =
      [(STATE_CACHE_PRIMARY_KEY, "setup-java-Linux-maven-deadbeef")] :=
  ⟨(c2_restore_frame envLinux none "maven" "" true pmMavenVal
      "setup-java-Linux-maven-deadbeef" rfl rfl).1,
   (c2_restore_frame envLinux none "maven" "" true pmMavenVal
      "setup-java-Linux-maven-deadbeef" rfl rfl).2.1 rfl,
   ((c2_restore_frame envLinux none "maven" "" false pmMavenVal
      "setup-java-Linux-maven-deadbeef" rfl rfl).2.2 rfl).1,
   ((c2_restore_frame envLinux none "maven" "" false pmMavenVal
      "setup-java-Linux-maven-deadbeef" rfl rfl).2.2 rfl).2⟩

/-- Claim C3: with performRestore true, a reported matched key is persisted
into the matched key slot, the cache-hit output equals the equality of the
matched and primary keys, and an informational trace names the matched key;
with no reported match the cache-hit output is false, the matched key slot
is not written, and an informational trace reports that no cache was found
for the primary key. -/
theorem c3_restore_hit_and_miss (env : Env) (id cacheDependencyPath : String)
    (pm : PackageManager) (k : String)
    (hpm : findPackageManager env id = .ok pm)
    (hk : computeCacheKey env pm cacheDependencyPath = .ok k) :
    (∀ m : String, m ≠ "" →
      restore env (some m) id cacheDependencyPath true =
        (⟨["primary key is " ++ k],
          [(STATE_CACHE_PRIMARY_KEY, k), (CACHE_MATCHED_KEY, m)],
          [(pm.path, k, [cacheKeyPrefixStr ++ "-" ++ env.runnerOS ++ "-" ++ pm.id])],
          [("cache-hit", m == k)],
          ["Cache restored from key: " ++ m]⟩, none)) ∧
    restore env none id cacheDependencyPath true =
      (⟨["primary key is " ++ k],
        [(STATE_CACHE_PRIMARY_KEY, k)],
        [(pm.path, k, [cacheKeyPrefixStr ++ "-" ++ env.runnerOS ++ "-" ++ pm.id])],
        [("cache-hit", false)],
        [pm.id ++ " cache is not found for key " ++ k]⟩, none) := by
  constructor
  · intro m hm
    simp only [restore, hpm, hk]
    simp [hm]
  · simp only [restore, hpm, hk]
    simp

/-- Claim C3 witness: a fallback hit with an unequal key and a miss, for the
maven package manager on Linux. -/
theorem c3_restore_hit_and_miss_witness :
    restore envLinux (some "setup-java-Linux-maven") "maven" "" true =
      (⟨["primary key is setup-java-Linux-maven-deadbeef"],
        [(STATE_CACHE_PRIMARY_KEY, "setup-java-Linux-maven-deadbeef"),
         (CACHE_MATCHED_KEY, "setup-java-Linux-maven")],
        [(["/home/runner/.m2/repository"], "setup-java-Linux-maven-deadbeef",
          ["setup-java-Linux-maven"])],
        [("cache-hit", false)],
        ["Cache restored from key: setup-java-Linux-maven"]⟩, none) ∧
    restore envLinux none "maven" "" true =
      (⟨["primary key is setup-java-Linux-maven-deadbeef"],
        [(STATE_CACHE_PRIMARY_KEY, "setup-java-Linux-maven-deadbeef")],
        [(["/home/runner/.m2/repository"], "setup-java-Linux-maven-deadbeef",
          ["setup-java-Linux-maven"])],
        [("cache-hit", false)],
        ["maven cache is not found for key setup-java-Linux-maven-deadbeef"]⟩, none) :=
  ⟨(c3_restore_hit_and_miss envLinux "maven" "" pmMavenVal
      "setup-java-Linux-maven-deadbeef" rfl rfl).1 "setup-java-Linux-maven" (by decide),
   (c3_restore_hit_and_miss envLinux "maven" "" pmMavenVal
      "setup-java-Linux-maven-deadbeef" rfl rfl).2⟩

/-- Claim C4: computeCacheKey is deterministic: two environments agreeing on
RUNNER_OS, the working directory and the hashing primitive yield identical
results for the same descriptor and override pattern, whatever else differs. -/
theorem c4_computeCacheKey_deterministic (envA envB : Env) (pm : PackageManager)
    (cacheDependencyPath : String)
    (hos : envA.runnerOS = envB.runnerOS) (hcwd : envA.cwd = envB.cwd)
    (hhash : envA.hashFiles = envB.hashFiles) :
    computeCacheKey envA pm cacheDependencyPath = computeCacheKey envB pm cacheDependencyPath := by
  simp only [computeCacheKey, hos, hcwd, hhash]

/-- Claim C4 witness: two environments differing in os type and home
directory produce the same key. -/
theorem c4_computeCacheKey_deterministic_witness :
    computeCacheKey envLinux pmMavenVal "" = computeCacheKey envLinuxAlt pmMavenVal "" :=
  c4_computeCacheKey_deterministic envLinux envLinuxAlt pmMavenVal "" rfl rfl rfl

/-- Claim C5: computeCacheKey fails exactly when the hashing primitive
returns the empty hash; the error message is the no-file diagnostic naming
the working directory and the effective pattern list, followed by a fixed
suffix; and a successful key always embeds the nonempty hash, so a key with
an empty hash is never produced. -/
theorem c5_computeCacheKey_failure (env : Env) (pm : PackageManager)
    (cacheDependencyPath : String) :
    ((∃ e, computeCacheKey env pm cacheDependencyPath = .error e) ↔
      env.hashFiles (String.intercalate "\n" (effectivePattern pm cacheDependencyPath)) = "") ∧
    (∀ e, computeCacheKey env pm cacheDependencyPath = .error e →
      e.message =
        ("No file in " ++ env.cwd ++ " matched to [" ++
          String.intercalate "," (effectivePattern pm cacheDependencyPath) ++ "]") ++
          ", make sure you have checked out the target repository") ∧
    (∀ k, computeCacheKey env pm cacheDependencyPath = .ok k →
      k = cacheKeyPrefixStr ++ "-" ++ env.runnerOS ++ "-" ++ pm.id ++ "-" ++
            env.hashFiles (String.intercalate "\n" (effectivePattern pm cacheDependencyPath)) ∧
      env.hashFiles (String.intercalate "\n" (effectivePattern pm cacheDependencyPath)) ≠ "") := by
  refine ⟨⟨?_, ?_⟩, ?_, ?_⟩
  · rintro ⟨e, he⟩
    by_contra hne
    simp [computeCacheKey, hne] at he
  · intro h
    refine ⟨⟨"Error",
      "No file in " ++ env.cwd ++ " matched to [" ++
        String.intercalate "," (effectivePattern pm cacheDependencyPath) ++
        "], make sure you have checked out the target repository"⟩, ?_⟩
    simp [computeCacheKey, h]
  · intro e he
    by_cases h : env.hashFiles (String.intercalate "\n" (effectivePattern pm cacheDependencyPath)) = ""
    · have hc : computeCacheKey env pm cacheDependencyPath =
          .error ⟨"Error",
            "No file in " ++ env.cwd ++ " matched to [" ++
              String.intercalate "," (effectivePattern pm cacheDependencyPath) ++
              "], make sure you have checked out the target repository"⟩ := by
        simp [computeCacheKey, h]
      rw [hc] at he
      have he2 := Except.error.inj he
      rw [← he2]
      simp only [String.append_assoc]
      rfl
    · exfalso
      simp [computeCacheKey, h] at he
  · intro k hk
    by_cases h : env.hashFiles (String.intercalate "\n" (effectivePattern pm cacheDependencyPath)) = ""
    · exfalso
      simp [computeCacheKey, h] at hk
    · simp [computeCacheKey, h] at hk
      exact ⟨hk.symm, h⟩

/-- Claim C5 witness: with a never matching hashing primitive the maven key
computation fails with the documented message, and with a matching one it
embeds the nonempty hash. -/
theorem c5_computeCacheKey_failure_witness :
    JsError.message ⟨"Error",
        "No file in /w matched to [**/pom.xml], make sure you have checked out the target repository"⟩ =
      ("No file in /w matched to [**/pom.xml]") ++
        ", make sure you have checked out the target repository" ∧
    ("setup-java-Linux-maven-deadbeef" : String) =
      cacheKeyPrefixStr ++ "-" ++ envLinux.runnerOS ++ "-" ++ pmMavenVal.id ++ "-" ++
        envLinux.hashFiles (String.intercalate "\n" (effectivePattern pmMavenVal "")) :=
  ⟨(c5_computeCacheKey_failure envNoMatch pmMavenVal "").2.1
      ⟨"Error",
       "No file in /w matched to [**/pom.xml], make sure you have checked out the target repository"⟩
      rfl,
   ((c5_computeCacheKey_failure envLinux pmMavenVal "").2.2
      "setup-java-Linux-maven-deadbeef" rfl).1⟩

/-- Claim C6: a non empty override pattern is trimmed, split on newlines and
entirely replaces the default patterns, while an empty override selects the
defaults; moreover the key computation consults the hashing primitive only
at the newline join of the effective pattern list. -/
theorem c6_override_replaces (pm : PackageManager) (cacheDependencyPath : String) :
    (cacheDependencyPath ≠ "" →
      effectivePattern pm cacheDependencyPath = jsSplitNewline (jsTrim cacheDependencyPath)) ∧
    (cacheDependencyPath = "" → effectivePattern pm cacheDependencyPath = pm.pattern) ∧
    (∀ envA envB : Env, envA.runnerOS = envB.runnerOS → envA.cwd = envB.cwd →
      envA.hashFiles (String.intercalate "\n" (effectivePattern pm cacheDependencyPath)) =
        envB.hashFiles (String.intercalate "\n" (effectivePattern pm cacheDependencyPath)) →
      computeCacheKey envA pm cacheDependencyPath = computeCacheKey envB pm cacheDependencyPath) := by
  refine ⟨?_, ?_, ?_⟩
  · intro h
    simp [effectivePattern, h]
  · intro h
    simp [effectivePattern, h]
  · intro envA envB hos hcwd hhash
    simp only [computeCacheKey, hos, hcwd, hhash]

/-- Claim C6 witness: a concrete override replaces the maven defaults and two
environments agreeing on the hashing primitive agree on the key. -/
theorem c6_override_replaces_witness :
    effectivePattern pmMavenVal "sub-project1/**/*.gradle*" = ["sub-project1/**/*.gradle*"] ∧
    effectivePattern pmMavenVal "" = ["**/pom.xml"] ∧
    computeCacheKey envLinux pmMavenVal "x" = computeCacheKey envLinuxAlt pmMavenVal "x" :=
  ⟨(c6_override_replaces pmMavenVal "sub-project1/**/*.gradle*").1 (by decide),
   (c6_override_replaces pmMavenVal "").2.1 rfl,
   (c6_override_replaces pmMavenVal "x").2.2 envLinux envLinuxAlt rfl rfl rfl⟩

theorem save_past_guards (env : Env) (getState : String → String)
    (storeSaveResult : Except JsError Unit) (id : String) (pm : PackageManager)
    (forceUpdate : Bool) (hpm : findPackageManager env id = .ok pm)
    (hattempt : forceUpdate = true ∨
      (getState STATE_CACHE_PRIMARY_KEY ≠ "" ∧
       getState CACHE_MATCHED_KEY ≠ getState STATE_CACHE_PRIMARY_KEY)) :
    save env getState storeSaveResult id forceUpdate =
      trySaveCache env pm (getState STATE_CACHE_PRIMARY_KEY) storeSaveResult := by
  simp only [save, hpm]
  rcases hattempt with h | ⟨h1, h2⟩
  · subst h
    simp
  · simp [h1, h2]

/-- Claim C7: when the artifact store save fails and a save was attempted, an
error named ReserveCacheError is swallowed with its message logged
informationally and nothing rethrown; a tar failure for the gradle package
manager on a Windows runner yields the actionable warning and the original
error rethrown; any other failure is rethrown unchanged with no warning. -/
theorem c7_save_error_classification (env : Env) (getState : String → String)
    (id : String) (pm : PackageManager) (e : JsError) (forceUpdate : Bool)
    (hpm : findPackageManager env id = .ok pm)
    (hattempt : forceUpdate = true ∨
      (getState STATE_CACHE_PRIMARY_KEY ≠ "" ∧
       getState CACHE_MATCHED_KEY ≠ getState STATE_CACHE_PRIMARY_KEY)) :
    (e.name = "ReserveCacheError" →
      save env getState (.error e) id forceUpdate =
        (⟨[], [e.message], [(pm.path, getState STATE_CACHE_PRIMARY_KEY)]⟩, none)) ∧
    (e.name ≠ "ReserveCacheError" → pm.id = "gradle" → env.runnerOS = "Windows" →
      jsStartsWith e.message "Tar failed with error: " = true →
      save env getState (.error e) id forceUpdate =
        (⟨[gradleDaemonWarning], [], [(pm.path, getState STATE_CACHE_PRIMARY_KEY)]⟩, some e)) ∧
    (e.name ≠ "ReserveCacheError" →
      ¬(pm.id = "gradle" ∧ env.runnerOS = "Windows" ∧
        jsStartsWith e.message "Tar failed with error: " = true) →
      save env getState (.error e) id forceUpdate =
        (⟨[], [], [(pm.path, getState STATE_CACHE_PRIMARY_KEY)]⟩, some e)) := by
  have hsave := save_past_guards env getState (.error e) id pm forceUpdate hpm hattempt
  refine ⟨?_, ?_, ?_⟩
  · intro hn
    rw [hsave]
    unfold trySaveCache
    simp [hn]
  · intro hn hg hw hs
    have hcls : isProbablyGradleDaemonProblem env pm e = true := by
      unfold isProbablyGradleDaemonProblem
      simp [hg, hw, hs]
    rw [hsave]
    unfold trySaveCache
    simp [hn, hcls]
  · intro hn hother
    have hcls : isProbablyGradleDaemonProblem env pm e = false := by
      unfold isProbablyGradleDaemonProblem
      by_cases hg : pm.id = "gradle"
      · by_cases hw : env.runnerOS = "Windows"
        · rcases Bool.eq_false_or_eq_true (jsStartsWith e.message "Tar failed with error: ") with hb | hb
          · exact absurd ⟨hg, hw, hb⟩ hother
          · simp [hg, hw, hb]
        · simp [hw]
      · simp [hg]
    rw [hsave]
    unfold trySaveCache
    simp [hn, hcls]

/-- Claim C7 witness: the three failure classes at concrete inputs for the
gradle package manager on a Windows runner. -/
theorem c7_save_error_classification_witness :
    save envWin gsMiss (.error ⟨"ReserveCacheError", "reserved msg"⟩) "gradle" false =
      (⟨[], ["reserved msg"], [(["C:/Users/r/.gradle/caches"], "pk1")]⟩, none) ∧
    save envWin gsMiss (.error ⟨"Error", "Tar failed with error: boom"⟩) "gradle" false =
      (⟨[gradleDaemonWarning], [], [(["C:/Users/r/.gradle/caches"], "pk1")]⟩,
        some ⟨"Error", "Tar failed with error: boom"⟩) ∧
    save envWin gsMiss (.error ⟨"Error", "disk full"⟩) "gradle" false =
      (⟨[], [], [(["C:/Users/r/.gradle/caches"], "pk1")]⟩, some ⟨"Error", "disk full"⟩) :=
  ⟨(c7_save_error_classification envWin gsMiss "gradle" pmGradleWinVal
      ⟨"ReserveCacheError", "reserved msg"⟩ false rfl
      (Or.inr ⟨by decide, by decide⟩)).1 rfl,
   (c7_save_error_classification envWin gsMiss "gradle" pmGradleWinVal
      ⟨"Error", "Tar failed with error: boom"⟩ false rfl
      (Or.inr ⟨by decide, by decide⟩)).2.1 (by decide) rfl rfl (by decide),
   (c7_save_error_classification envWin gsMiss "gradle" pmGradleWinVal
      ⟨"Error", "disk full"⟩ false rfl
      (Or.inr ⟨by decide, by decide⟩)).2.2 (by decide) (by decide)⟩

theorem findPackageManager_unknown (env : Env) (id : String)
    (h1 : id ≠ "maven") (h2 : id ≠ "gradle") (h3 : id ≠ "sbt") :
    findPackageManager env id =
      .error ⟨"Error", "unknown package manager specified: " ++ id⟩ := by
  have e1 : ("maven" == id) = false := beq_eq_false_iff_ne.mpr (Ne.symm h1)
  have e2 : ("gradle" == id) = false := beq_eq_false_iff_ne.mpr (Ne.symm h2)
  have e3 : ("sbt" == id) = false := beq_eq_false_iff_ne.mpr (Ne.symm h3)
  unfold findPackageManager supportedPackageManager
  simp [List.find?, e1, e2, e3]

/-- Claim C8: for an id outside the supported set, restore and save both fail
with the unknown package manager message, the error value being independent
of the environment, the state, the hashing primitive and the store, and with
no state write, output, trace or store call recorded. -/
theorem c8_unknown_package_manager (env : Env) (storeResult : Option String)
    (getState : String → String) (storeSaveResult : Except JsError Unit)
    (id cacheDependencyPath : String) (performRestore forceUpdate : Bool)
    (h1 : id ≠ "maven") (h2 : id ≠ "gradle") (h3 : id ≠ "sbt") :
    restore env storeResult id cacheDependencyPath performRestore =
      (⟨[], [], [], [], []⟩, some ⟨"Error", "unknown package manager specified: " ++ id⟩) ∧
    save env getState storeSaveResult id forceUpdate =
      (⟨[], [], []⟩, some ⟨"Error", "unknown package manager specified: " ++ id⟩) := by
  have hf := findPackageManager_unknown env id h1 h2 h3
  constructor
  · simp only [restore, hf]
  · simp only [save, hf]

/-- Claim C8 witness at the id ant of the spec test. -/
theorem c8_unknown_package_manager_witness :
    restore envLinux none "ant" "" true =
      (⟨[], [], [], [], []⟩, some ⟨"Error", "unknown package manager specified: ant"⟩) ∧
    save envLinux gsEmpty (.ok ()) "ant" false =
      (⟨[], [], []⟩, some ⟨"Error", "unknown package manager specified: ant"⟩) :=
  c8_unknown_package_manager envLinux none gsEmpty (.ok ()) "ant" "" true false
    (by decide) (by decide) (by decide)

/-- Claim C9: a successful computeCacheKey returns exactly the string
composed of the constant prefix setup-java, the RUNNER_OS platform, the
package manager identity and the content hash, joined by dashes. -/
theorem c9_key_format (env : Env) (pm : PackageManager) (cacheDependencyPath k : String)
    (h : computeCacheKey env pm cacheDependencyPath = .ok k) :
    k = "setup-java" ++ "-" ++ env.runnerOS ++ "-" ++ pm.id ++ "-" ++
          env.hashFiles (String.intercalate "\n" (effectivePattern pm cacheDependencyPath)) := by
  by_cases hh : env.hashFiles (String.intercalate "\n" (effectivePattern pm cacheDependencyPath)) = ""
  · exfalso
    simp [computeCacheKey, hh] at h
  · simp [computeCacheKey, hh] at h
    exact h.symm

/-- Claim C9 witness for the maven package manager on Linux. -/
theorem c9_key_format_witness :
    ("setup-java-Linux-maven-deadbeef" : String) =
      "setup-java" ++ "-" ++ envLinux.runnerOS ++ "-" ++ pmMavenVal.id ++ "-" ++
        envLinux.hashFiles (String.intercalate "\n" (effectivePattern pmMavenVal "")) :=
  c9_key_format envLinux pmMavenVal "" "setup-java-Linux-maven-deadbeef" rfl

/-- Claim C10: with forceUpdate true and an empty persisted primary key, the
store save is still called, with the empty string as the cache key. -/
theorem c10_force_save_without_key (env : Env) (getState : String → String)
    (storeSaveResult : Except JsError Unit) (id : String) (pm : PackageManager)
    (hpm : findPackageManager env id = .ok pm)
    (hpk : getState STATE_CACHE_PRIMARY_KEY = "") :
    (save env getState storeSaveResult id true).1.storeSaveCalls = [(pm.path, "")] := by
  simp only [save, hpm]
  simp [hpk, trySaveCache_calls]

/-- Claim C10 witness: a forced save with empty state calls the store with
the empty key. -/
theorem c10_force_save_without_key_witness :
    (save envLinux gsEmpty (.error ⟨"Error", "x"⟩) "maven" true).1.storeSaveCalls =
      [(["/home/runner/.m2/repository"], "")] :=
  c10_force_save_without_key envLinux gsEmpty (.error ⟨"Error", "x"⟩) "maven" pmMavenVal rfl rfl

end SetupJava
